import Mathlib

/-!
Shallow embedding of `gemini_weather_email.js`: the agent's data model, the
two tool executors (`getWeatherTool`, `sendEmailTool`), the tool registry
(`toolsMap`), and the orchestration loop of `main` (the `while (true)` loop
with its `safetyCounter` bound).

Modelling conventions:
* JavaScript values appearing as tool arguments are modelled by `JsonVal`;
  an arguments object is an association list keyed by property name, a
  missing property being an absent key (JS `undefined`).
* Fallible JS code (a `throw`) is an `Except String` result.
* Each tool executor additionally returns the number of outbound network
  operations it performed, so "fails before any network request" is a
  statement about that count.
* External collaborators are oracles inside `Env`: the text-weather backend
  is a function from the lower-cased city to the response body (the HTTP GET
  to `wttr.in/{encodeURIComponent(city.toLowerCase())}` is keyed injectively
  by that city string), and the SMTP relay returns a message id.
* Numbers produced by `Number(sign ++ digits)` are modelled as exact
  integers; IEEE-754 rounding of digit strings longer than ~15 digits is not
  modelled (no realistic temperature text reaches it).
-/

/-- A JSON-like JavaScript value, as carried in `call.args`. -/
inductive JsonVal where
  | str : String → JsonVal
  | num : Int → JsonVal
  | boolean : Bool → JsonVal
  | null : JsonVal
deriving DecidableEq, Repr

deriving instance DecidableEq for Except

/-- A tool-call arguments object: property name to value. -/
abbrev Args := List (String × JsonVal)

/-- Property access `args.k` (JS destructuring): `none` is `undefined`. -/
def getArg (args : Args) (k : String) : Option JsonVal :=
  args.lookup k

/-- Result of a successful weather lookup, per `GetWeatherResultSchema`.
`degree_c` is an `Int` because a successful `parse` implies the value was a
genuine (non-NaN) number, and the regex group is a signed digit string. -/
structure WeatherResult where
  city : String
  degree_c : Int
  condition : Option String
deriving DecidableEq, Repr

/-- Result of a successful email send: `{ messageId: info.messageId }`. -/
structure EmailInfo where
  messageId : String
deriving DecidableEq, Repr

/-- Payload of a successful tool invocation, as serialized back to the model
inside a `functionResponse` part. -/
inductive ToolPayload where
  | weather : WeatherResult → ToolPayload
  | email : EmailInfo → ToolPayload
  /-- Value produced when the registry lookup resolves through the prototype
  chain and the program calls an inherited `Object.prototype` member in
  place of a tool executor (see `nameInToolsMap`). -/
  | jsValue : JsonVal → ToolPayload
deriving DecidableEq, Repr

/-- The environment of one run: `process.env` mail settings (a `none` or
empty string is JS-falsy, hence "absent") and the external collaborators. -/
structure Env where
  smtpHost : Option String
  smtpPort : Option String
  smtpUser : Option String
  smtpPass : Option String
  fromEmail : Option String
  /-- Weather collaborator: lower-cased city ↦ raw response text. -/
  weatherBackend : String → String
  /-- Message id the SMTP relay reports on successful delivery. -/
  smtpMessageId : String
  /-- Outcome of `toolsMap[name](args)` when `name` resolves through the
  prototype chain to an inherited `Object.prototype` member (so the
  `name in toolsMap` guard passes without a registered tool).  The outcome
  is fixed by the JS runtime's built-ins, not by this repository's code, so
  it is an oracle: `ok v` models a callable member returning `v` (e.g.
  `toString` returns the string "[object Object]" and the loop records it
  and continues), `error e` a thrown TypeError (e.g. `__proto__` evaluates
  to a non-function). -/
  protoCall : String → Args → Except String JsonVal

/- =====================  Weather executor  ===================== -/

/-- The JS regex class `\d`: an ASCII digit. -/
def isJsDigit (c : Char) : Bool :=
  '0' ≤ c && c ≤ '9'

/-- The JS regex class `\s`, restricted to the ASCII whitespace the weather
service can emit. -/
def isJsSpace (c : Char) : Bool :=
  c = ' ' || c = '\t' || c = '\n' || c = '\r' || c = '\x0b' || c = '\x0c'

/-- Value of a digit run under JS `Number`, as an exact natural. -/
def digitsToNat (ds : List Char) : Nat :=
  ds.foldl (fun n c => 10 * n + (c.toNat - '0'.toNat)) 0

/-- JS `String.prototype.trim`, over the ASCII whitespace the weather text
can contain (JS additionally strips Unicode spaces and the BOM). -/
def jsTrim (s : String) : String :=
  (((s.toList.dropWhile isJsSpace).reverse.dropWhile isJsSpace).reverse).asString

/-- JS `String.prototype.toLowerCase`, restricted to ASCII letters (city
names in scope are ASCII). -/
def jsToLower (s : String) : String :=
  (s.toList.map (fun c =>
    if 'A' ≤ c && c ≤ 'Z' then Char.ofNat (c.toNat + 32) else c)).asString

/-- Try to match `[-+]?\d+\s*°[Cc]` at the head of `cs`.
Returns `(matched length, integer value of the signed digit group)`.
No backtracking is needed: after a maximal digit run the next char is not a
digit, and after a maximal `\s*` run only `°` can extend the match. -/
def matchTempAt (cs : List Char) : Option (Nat × Int) :=
  let (signLen, sign, rest) :=
    match cs with
    | '+' :: r => (1, (1 : Int), r)
    | '-' :: r => (1, (-1 : Int), r)
    | r => (0, (1 : Int), r)
  let digits := rest.takeWhile isJsDigit
  if digits.isEmpty then none
  else
    let rest2 := rest.drop digits.length
    let ws := rest2.takeWhile isJsSpace
    match rest2.drop ws.length with
    | '°' :: c :: _ =>
      if c = 'C' || c = 'c' then
        some (signLen + digits.length + ws.length + 2, sign * (digitsToNat digits : Int))
      else none
    | _ => none

/-- Leftmost match of `/([-+]?\d+)\s*°C/i` in `cs`:
`(start index, matched length, group value)`. The same span is what
`raw.replace(/([-+]?\d+\s*°C)/i, '')` removes, the two patterns describing
the same matched text. -/
def findTemp : List Char → Option (Nat × Nat × Int)
  | [] => none
  | c :: rest =>
    match matchTempAt (c :: rest) with
    | some (len, v) => some (0, len, v)
    | none =>
      match findTemp rest with
      | some (s, len, v) => some (s + 1, len, v)
      | none => none

/-- The `getWeatherTool` executor.  Mirrors the source exactly:
city presence/type check, network read of the weather text, trim, regex
match for the temperature, removal of the matched span for the condition,
then `GetWeatherResultSchema.parse`.  When no temperature pattern matches,
`degree_c` is JS `NaN`, and zod's `z.number()` rejects `NaN` (its parsed
type is `nan`, not `number`), so `parse` throws
"Expected number, received nan".  The second component counts outbound
network requests. -/
def getWeatherTool (env : Env) (args : Args) : Except String WeatherResult × Nat :=
  match getArg args "city" with
  | some (JsonVal.str city) =>
    if city = "" then (Except.error "city is required", 0)
    else
      let raw := jsTrim (env.weatherBackend (jsToLower city))
      let cs := raw.toList
      match findTemp cs with
      | some (s, len, v) =>
        let condition := jsTrim ((cs.take s) ++ (cs.drop (s + len))).asString
        (Except.ok { city := city, degree_c := v,
                     condition := if condition = "" then none else some condition }, 1)
      | none =>
        (Except.error "Expected number, received nan", 1)
  | _ => (Except.error "city is required", 0)

/- =====================  Email executor  ===================== -/

/-- A character allowed in the local part of zod's email regex
`[A-Za-z0-9_'+\-\.]` (the apostrophe is `Char.ofNat 39`). -/
def isEmailLocalChar (c : Char) : Bool :=
  ('A' ≤ c && c ≤ 'Z') || ('a' ≤ c && c ≤ 'z') || isJsDigit c ||
    c = '_' || c = Char.ofNat 39 || c = '+' || c = '-' || c = '.'

/-- A character allowed right before the `@`: `[A-Za-z0-9_+-]` (no dot). -/
def isEmailLocalEndChar (c : Char) : Bool :=
  ('A' ≤ c && c ≤ 'Z') || ('a' ≤ c && c ≤ 'z') || isJsDigit c ||
    c = '_' || c = '+' || c = '-'

/-- An ASCII letter, for the final domain label `[A-Za-z]{2,}`. -/
def isEmailAlpha (c : Char) : Bool :=
  ('A' ≤ c && c ≤ 'Z') || ('a' ≤ c && c ≤ 'z')

/-- Does `cs` contain two consecutive dots (the `(?!.*\.\.)` lookahead)? -/
def hasDoubleDot : List Char → Bool
  | '.' :: '.' :: _ => true
  | _ :: rest => hasDoubleDot rest
  | [] => false

/-- One non-final domain label `[A-Za-z0-9][A-Za-z0-9\-]*`. -/
def isDomainLabel (cs : List Char) : Bool :=
  match cs with
  | [] => false
  | c :: rest =>
    (isEmailAlpha c || isJsDigit c) &&
      rest.all (fun d => isEmailAlpha d || isJsDigit d || d = '-')

/-- zod's `z.string().email()` check, i.e. its email regex
`^(?!\.)(?!.*\.\.)([A-Za-z0-9_'+\-\.]*)[A-Za-z0-9_+-]@([A-Za-z0-9][A-Za-z0-9\-]*\.)+[A-Za-z]{2,}$`:
no leading dot, no double dot, a non-empty local part over the allowed
alphabet not ending in a dot, an `@`, and a dot-separated domain whose final
label is at least two letters. -/
def isEmail (s : String) : Bool :=
  let cs := s.toList
  if cs.head? = some '.' then false
  else if hasDoubleDot cs then false
  else
    match cs.splitOn '@' with
    | [localPart, domain] =>
      (!localPart.isEmpty) &&
        localPart.all isEmailLocalChar &&
        (match localPart.getLast? with
         | some c => isEmailLocalEndChar c
         | none => false) &&
        (let labels := domain.splitOn '.'
         labels.length ≥ 2 &&
           labels.dropLast.all isDomainLabel &&
           (match labels.getLast? with
            | some lst => lst.length ≥ 2 && lst.all isEmailAlpha
            | none => false))
    | _ => false

/-- Validated `SendEmailParamsSchema` value. -/
structure EmailParams where
  toEmail : String
  subject : String
  body : String
deriving DecidableEq, Repr

/-- zod string field extraction: `undefined` is issue "Required", a present
non-string is an invalid-type issue (message abbreviated). -/
def zodStr : Option JsonVal → Except String String
  | some (JsonVal.str s) => Except.ok s
  | none => Except.error "Required"
  | some _ => Except.error "Invalid type: expected string"

/-- The `SendEmailParamsSchema.parse` validation, fields in declaration order
(toEmail: email-shaped string, subject: min length 1, body: min length 1).
A failure carries the first violated constraint's zod message (the thrown
`ZodError` aggregates every issue; we record the first). -/
def parseSendEmailParams (args : Args) : Except String EmailParams :=
  match zodStr (getArg args "toEmail") with
  | Except.error e => Except.error e
  | Except.ok t =>
    if !isEmail t then Except.error "Invalid email"
    else
      match zodStr (getArg args "subject") with
      | Except.error e => Except.error e
      | Except.ok su =>
        if su.length < 1 then Except.error "String must contain at least 1 character(s)"
        else
          match zodStr (getArg args "body") with
          | Except.error e => Except.error e
          | Except.ok b =>
            if b.length < 1 then Except.error "String must contain at least 1 character(s)"
            else Except.ok { toEmail := t, subject := su, body := b }

/-- JS falsiness of an environment variable: absent (`undefined`) or `""`. -/
def envAbsent : Option String → Bool
  | none => true
  | some s => s == ""

/-- The guard `!SMTP_HOST || !SMTP_PORT || !SMTP_USER || !SMTP_PASS || !FROM_EMAIL`. -/
def smtpConfigMissing (env : Env) : Bool :=
  envAbsent env.smtpHost || envAbsent env.smtpPort || envAbsent env.smtpUser ||
    envAbsent env.smtpPass || envAbsent env.fromEmail

/-- The `sendEmailTool` executor: config check first (before any network
I/O), then `SendEmailParamsSchema.parse`, then the one `sendMail` network
round trip (the transporter construction is local; the relay's outcome is
the `smtpMessageId` oracle).  Second component counts network operations. -/
def sendEmailTool (env : Env) (args : Args) : Except String EmailInfo × Nat :=
  if smtpConfigMissing env then
    (Except.error "Missing SMTP config: SMTP_HOST, SMTP_PORT, SMTP_USER, SMTP_PASS, FROM_EMAIL", 0)
  else
    match parseSendEmailParams args with
    | Except.error e => (Except.error e, 0)
    | Except.ok _params => (Except.ok { messageId := env.smtpMessageId }, 1)

/- =====================  Conversation model  ===================== -/

/-- A tool-call request emitted by the model (`call.name`, `call.args`);
`call.args || {}` makes a missing arguments object the empty list. -/
structure FunctionCall where
  name : String
  args : Args
deriving DecidableEq, Repr

/-- A `functionResponse` entry: tool name and its JSON-serializable result. -/
structure FunctionResponse where
  name : String
  response : ToolPayload
deriving DecidableEq, Repr

/-- One entry of a content's `parts` array (`Part` in the SDK's JSON; named
`ContentPart` here since Mathlib already has a `Part`).  Absent properties
are `none`. -/
structure ContentPart where
  text : Option String := none
  functionCall : Option FunctionCall := none
  functionResponse : Option FunctionResponse := none
deriving DecidableEq, Repr

/-- The parts of `resp.response.candidates[0].content`; a response with no
candidate content is the empty list (the `?.` chains default to `[]`). -/
abbrev ModelResponse := List ContentPart

/-- One turn of the conversation `history`. -/
structure Turn where
  role : String
  parts : List ContentPart
deriving DecidableEq, Repr

/-- Source `extractFunctionCalls`: the `functionCall` entries of the response's
parts, in order. -/
def extractFunctionCalls (resp : ModelResponse) : List FunctionCall :=
  (resp.filterMap ContentPart.functionCall)

/-- The final message assembly:
`parts?.map(p => p.text).filter(Boolean).join('\n') || 'Done.'` —
texts that are absent or empty are dropped, and an empty join (falsy)
defaults to `"Done."`. -/
def finalTextOf (resp : ModelResponse) : String :=
  let ts := (resp.filterMap ContentPart.text).filter (fun t => !(t == ""))
  if ts.isEmpty then "Done." else String.intercalate "\n" ts

/-- Source `buildFunctionResponsePart` wrapped into the pushed tool turn. -/
def toolTurn (name : String) (payload : ToolPayload) : Turn :=
  { role := "tool",
    parts := [{ functionResponse := some { name := name, response := payload } }] }

/-- The model turn pushed for one executed call. -/
def modelTurn (call : FunctionCall) : Turn :=
  { role := "model", parts := [{ functionCall := some call }] }

/-- The CLI inputs `--city`, `--to`, `--subject` (optional). -/
structure Argv where
  city : String
  /-- the `--to` flag (`argv.to`; `to` is reserved in Lean) -/
  toAddr : String
  subject : Option String
deriving DecidableEq, Repr

/-- The seed user prompt of `main` (a falsy `subject`, absent or empty,
contributes nothing). -/
def buildUserPrompt (a : Argv) : String :=
  "City: " ++ a.city ++ "\nRecipient: " ++ a.toAddr ++ "\n" ++
    (match a.subject with
     | some s => if s == "" then "" else "Preferred subject: " ++ s ++ "\n"
     | none => "") ++
    "Please email the current weather for the city to the recipient."

/-- The initial `history`: one user turn holding the seed prompt. -/
def userTurn (a : Argv) : Turn :=
  { role := "user", parts := [{ text := some (buildUserPrompt a) }] }

/- =====================  Tool registry and dispatch  ===================== -/

/-- The `toolsMap` registry: name ↦ executor (each executor uniformly
returning a `ToolPayload` and its network-operation count). -/
def toolsMap (name : String) : Option (Env → Args → Except String ToolPayload × Nat) :=
  if name = "get_weather" then
    some (fun env args =>
      let r := getWeatherTool env args
      (r.1.map ToolPayload.weather, r.2))
  else if name = "send_email" then
    some (fun env args =>
      let r := sendEmailTool env args
      (r.1.map ToolPayload.email, r.2))
  else none

/-- Own property names of `Object.prototype` (ECMA-262 plus the Annex B
accessors, all present in Node).  The object literal `toolsMap` inherits
them, so the JS `in` operator finds these names on it. -/
def objectPrototypeNames : List String :=
  ["constructor", "hasOwnProperty", "isPrototypeOf", "propertyIsEnumerable",
   "toLocaleString", "toString", "valueOf", "__proto__", "__defineGetter__",
   "__defineSetter__", "__lookupGetter__", "__lookupSetter__"]

/-- The source's membership test `name in toolsMap`: JS `in` walks the
prototype chain, so it is true for the two registered tools and for every
inherited `Object.prototype` property name. -/
def nameInToolsMap (name : String) : Bool :=
  (toolsMap name).isSome || objectPrototypeNames.contains name

/-- Does dispatching `call` succeed: the name is registered and the executor
returns normally (used to state the loop theorems). -/
def dispatchOk (env : Env) (call : FunctionCall) : Bool :=
  match toolsMap call.name with
  | some tool => (tool env call.args).1.isOk
  | none => false

/-- The `for (const call of calls)` body of `main`: the guard
`if (!(name in toolsMap)) throw ...` (unknown-tool fatal error exactly when
`in` finds the name neither as a registered tool nor on the prototype
chain, see `nameInToolsMap`), then `await toolsMap[name](args)` — the
registered executor for the two tool names, or the inherited
`Object.prototype` member (via `env.protoCall`) for inherited names — a
thrown error aborting the batch before any push for that call; on return,
push one model turn and one tool turn recording the call and its result.
Returns (fatal error if any, the resulting history, the names of the
registered tool executors actually invoked, in order — inherited-member
calls are not tool executors and are not recorded there). -/
def processCalls (env : Env) : List FunctionCall → List Turn → Option String × List Turn × List String
  | [], history => (none, history, [])
  | call :: rest, history =>
    if nameInToolsMap call.name then
      match toolsMap call.name with
      | some tool =>
        match tool env call.args with
        | (Except.ok payload, _n) =>
          let h := history ++ [modelTurn call, toolTurn call.name payload]
          let r := processCalls env rest h
          (r.1, r.2.1, call.name :: r.2.2)
        | (Except.error e, _n) => (some e, history, [call.name])
      | none =>
        match env.protoCall call.name call.args with
        | Except.ok v =>
          let h := history ++ [modelTurn call, toolTurn call.name (ToolPayload.jsValue v)]
          let r := processCalls env rest h
          (r.1, r.2.1, r.2.2)
        | Except.error e => (some e, history, [])
    else (some ("Unknown tool requested by model: " ++ call.name), history, [])

/- =====================  Orchestration loop  ===================== -/

/-- Outcome of one run of `main`. -/
inductive RunResult where
  | done : String → RunResult
  | fatal : String → RunResult
deriving DecidableEq, Repr

/-- Instrumented trace of one run: its outcome, the final conversation
history, the final value of `safetyCounter`, the number of
`model.generateContent` network round trips, and the names of the tool
executors invoked, in order. -/
structure RunTrace where
  result : RunResult
  history : List Turn
  iterations : Nat
  modelCalls : Nat
  invoked : List String
deriving DecidableEq, Repr

/-- The `while (true)` loop of `main`.  `fuel` is the number of iterations
still allowed before `++safetyCounter > 6` fires: `runAgent` starts it at 6
with `counter = 0`, so `fuel = 6 - counter` throughout and `fuel = 0` at an
iteration entry is exactly the guard throwing
`Too many tool-call iterations.`.  `counter` is `safetyCounter` before the
iteration's increment; the reported `iterations` is its value after. -/
def loopGo (env : Env) (responses : Nat → ModelResponse) :
    Nat → ModelResponse → List Turn → Nat → Nat → List String → RunTrace
  | 0, _resp, history, counter, modelCalls, invoked =>
    { result := RunResult.fatal "Too many tool-call iterations.",
      history := history, iterations := counter + 1,
      modelCalls := modelCalls, invoked := invoked }
  | fuel + 1, resp, history, counter, modelCalls, invoked =>
    let calls := extractFunctionCalls resp
    if calls.isEmpty then
      { result := RunResult.done (finalTextOf resp),
        history := history, iterations := counter + 1,
        modelCalls := modelCalls, invoked := invoked }
    else
      match processCalls env calls history with
      | (some e, h, inv) =>
        { result := RunResult.fatal e,
          history := h, iterations := counter + 1,
          modelCalls := modelCalls, invoked := invoked ++ inv }
      | (none, h, inv) =>
        loopGo env responses fuel (responses modelCalls) h (counter + 1)
          (modelCalls + 1) (invoked ++ inv)

/-- Source `main`: seed the history with the user turn, perform the first
`generateContent` call (`responses 0`, one model call already counted), and
run the tool loop.  The Model Gateway is the oracle `responses`: its `i`-th
network round trip returns `responses i`. -/
def runAgent (env : Env) (argv : Argv) (responses : Nat → ModelResponse) : RunTrace :=
  loopGo env responses 6 (responses 0) [userTurn argv] 0 1 []

/-- The turns one successfully dispatched batch appends: a model turn and a
tool turn per call, in call order (meaningful when every call dispatches). -/
def appendedTurns (env : Env) : List FunctionCall → List Turn
  | [] => []
  | call :: rest =>
    match toolsMap call.name with
    | some tool =>
      match (tool env call.args).1 with
      | Except.ok payload => modelTurn call :: toolTurn call.name payload :: appendedTurns env rest
      | Except.error _ => []
    | none => []

/- =====================  Concrete fixtures  ===================== -/

/-- A fully configured environment whose weather backend always answers
`"Sunny +20°C"`. -/
def testEnv : Env :=
  { smtpHost := some "smtp.example.com", smtpPort := some "587",
    smtpUser := some "user", smtpPass := some "pass",
    fromEmail := some "from@example.com",
    weatherBackend := fun _ => "Sunny +20°C", smtpMessageId := "mid-1",
    protoCall := fun _ _ => Except.error "toolsMap[name] is not a function" }

/-- Like `testEnv` but with the weather backend answering `"Partly cloudy +15°C"`. -/
def envPartlyCloudy : Env :=
  { testEnv with weatherBackend := fun _ => "Partly cloudy +15°C" }

/-- Like `testEnv` but with a weather text containing no temperature pattern. -/
def envSunnyNoTemp : Env :=
  { testEnv with weatherBackend := fun _ => "Sunny" }

/-- Like `testEnv` but with `SMTP_HOST` unset. -/
def envNoHost : Env :=
  { testEnv with smtpHost := none }

def argv0 : Argv := { city := "Paris", toAddr := "a@b.com", subject := none }

def parisArgs : Args := [("city", JsonVal.str "Paris")]

def cwCall : FunctionCall := { name := "get_weather", args := parisArgs }

def cwPart : ContentPart := { functionCall := some cwCall }

/-- A `get_weather` request with no arguments at all. -/
def noCityCall : FunctionCall := { name := "get_weather", args := [] }

def bogusCall : FunctionCall := { name := "bogus", args := [] }

def goodEmailArgs : Args :=
  [("toEmail", JsonVal.str "a@b.com"), ("subject", JsonVal.str "Weather"),
   ("body", JsonVal.str "Sunny")]

def badEmailArgs : Args :=
  [("toEmail", JsonVal.str "not-an-email"), ("subject", JsonVal.str "Weather"),
   ("body", JsonVal.str "Sunny")]

def sendEmailPart (args : Args) : ContentPart :=
  { functionCall := some { name := "send_email", args := args } }

def textPart (t : String) : ContentPart := { text := some t }

/-- A gateway that requests `get_weather(city="Paris")` on every round. -/
def cwStream : Nat → ModelResponse := fun _ => [cwPart]

/-- A gateway that requests `get_weather` with no arguments on every round. -/
def noCityStream : Nat → ModelResponse := fun _ => [{ functionCall := some noCityCall }]

/-- Six tool-call rounds, then a final-text response. -/
def sixThenFinalStream : Nat → ModelResponse :=
  fun i => if i < 6 then [cwPart] else [textPart "All done!"]

/-- Five tool-call rounds, then a final-text response. -/
def fiveThenFinalStream : Nat → ModelResponse :=
  fun i => if i < 5 then [cwPart] else [textPart "All done!"]

/-- A gateway that requests `send_email` with an invalid recipient. -/
def badEmailStream : Nat → ModelResponse := fun _ => [sendEmailPart badEmailArgs]

/-- A gateway that requests `send_email` with schema-valid arguments. -/
def goodEmailStream : Nat → ModelResponse := fun _ => [sendEmailPart goodEmailArgs]

/-- The guard `!city || typeof city !== 'string'` on the `city` argument:
missing, not a string, or the empty string. -/
def cityArgInvalid (args : Args) : Bool :=
  match getArg args "city" with
  | some (JsonVal.str s) => s == ""
  | _ => true

/- =====================  Helper lemmas  ===================== -/

/-- A batch whose every call dispatches successfully is processed without a
fatal error: the history is extended by `appendedTurns` and every executor
is invoked in order. -/
theorem processCalls_all_ok (env : Env) :
    ∀ (calls : List FunctionCall) (history : List Turn),
      (∀ c ∈ calls, dispatchOk env c = true) →
      processCalls env calls history =
        (none, history ++ appendedTurns env calls, calls.map FunctionCall.name) := by
  intro calls
  induction calls with
  | nil => intro history _; simp [processCalls, appendedTurns]
  | cons call rest ih =>
    intro history h
    have hc : dispatchOk env call = true := h call (List.mem_cons_self _ _)
    have hr : ∀ c ∈ rest, dispatchOk env c = true :=
      fun c hm => h c (List.mem_cons_of_mem _ hm)
    unfold dispatchOk at hc
    cases htm : toolsMap call.name with
    | none => simp only [htm] at hc; exact Bool.noConfusion hc
    | some tool =>
      simp only [htm] at hc
      rcases hpair : tool env call.args with ⟨r1, n⟩
      cases r1 with
      | error e =>
        rw [hpair] at hc; simp [Except.isOk, Except.toBool] at hc
      | ok payload =>
        have hin : nameInToolsMap call.name = true := by
          unfold nameInToolsMap; rw [htm]; rfl
        simp only [processCalls, appendedTurns, hin, if_true, htm, hpair,
          ih (history ++ [modelTurn call, toolTurn call.name payload]) hr]
        simp [List.append_assoc]

/-- Length of the turns appended for a successfully dispatched batch:
two per call. -/
theorem appendedTurns_length (env : Env) :
    ∀ calls : List FunctionCall,
      (∀ c ∈ calls, dispatchOk env c = true) →
      (appendedTurns env calls).length = 2 * calls.length := by
  intro calls
  induction calls with
  | nil => intro _; simp [appendedTurns]
  | cons call rest ih =>
    intro h
    have hc : dispatchOk env call = true := h call (List.mem_cons_self _ _)
    have hr : ∀ c ∈ rest, dispatchOk env c = true :=
      fun c hm => h c (List.mem_cons_of_mem _ hm)
    unfold dispatchOk at hc
    cases htm : toolsMap call.name with
    | none => simp only [htm] at hc; exact Bool.noConfusion hc
    | some tool =>
      simp only [htm] at hc
      rcases hpair : tool env call.args with ⟨r1, n⟩
      cases r1 with
      | error e =>
        rw [hpair] at hc; simp [Except.isOk, Except.toBool] at hc
      | ok payload =>
        simp only [appendedTurns, htm, hpair, List.length_cons, ih hr]
        omega

/-- If the gateway always answers with at least one successfully
dispatchable tool call, `loopGo` burns all its fuel and stops with the
iteration-bound error, having made one model call per fuel unit. -/
theorem loopGo_never_final (env : Env) (responses : Nat → ModelResponse)
    (Hne : ∀ i, extractFunctionCalls (responses i) ≠ [])
    (Hok : ∀ i, ∀ c ∈ extractFunctionCalls (responses i), dispatchOk env c = true) :
    ∀ (fuel : Nat) (resp : ModelResponse) (history : List Turn)
      (counter modelCalls : Nat) (invoked : List String),
      extractFunctionCalls resp ≠ [] →
      (∀ c ∈ extractFunctionCalls resp, dispatchOk env c = true) →
      (loopGo env responses fuel resp history counter modelCalls invoked).result
          = RunResult.fatal "Too many tool-call iterations."
        ∧ (loopGo env responses fuel resp history counter modelCalls invoked).iterations
          = counter + 1 + fuel
        ∧ (loopGo env responses fuel resp history counter modelCalls invoked).modelCalls
          = modelCalls + fuel := by
  intro fuel
  induction fuel with
  | zero =>
    intro resp history counter mc inv _ _
    simp [loopGo]
  | succ f ih =>
    intro resp history counter mc inv h1 h2
    have hne : (extractFunctionCalls resp).isEmpty = false := by
      cases hx : extractFunctionCalls resp with
      | nil => exact absurd hx h1
      | cons a l => rfl
    have hrec := ih (responses mc) (history ++ appendedTurns env (extractFunctionCalls resp))
      (counter + 1) (mc + 1) (inv ++ (extractFunctionCalls resp).map FunctionCall.name)
      (Hne mc) (Hok mc)
    simp only [loopGo, hne, Bool.false_eq_true, if_false,
      processCalls_all_ok env _ _ h2]
    refine ⟨hrec.1, ?_, ?_⟩
    · rw [hrec.2.1]; omega
    · rw [hrec.2.2]; omega

/-- If the gateway answers `k` successfully dispatchable tool-call rounds
starting at round `start` and then a final-text response, and enough fuel
remains (`k < fuel`), the loop stops in DONE exposing that response's text,
after exactly `k` further model calls. -/
theorem loopGo_done (env : Env) (responses : Nat → ModelResponse) :
    ∀ (k fuel start counter : Nat) (history : List Turn) (invoked : List String),
      k < fuel →
      (∀ j, j < k → extractFunctionCalls (responses (start + j)) ≠ []) →
      (∀ j, j < k → ∀ c ∈ extractFunctionCalls (responses (start + j)), dispatchOk env c = true) →
      extractFunctionCalls (responses (start + k)) = [] →
      (loopGo env responses fuel (responses start) history counter (start + 1) invoked).result
          = RunResult.done (finalTextOf (responses (start + k)))
        ∧ (loopGo env responses fuel (responses start) history counter (start + 1) invoked).modelCalls
          = start + k + 1 := by
  intro k
  induction k with
  | zero =>
    intro fuel start counter history invoked hfuel _ _ hfin
    rw [Nat.add_zero] at hfin
    cases fuel with
    | zero => omega
    | succ f =>
      have hemp : (extractFunctionCalls (responses start)).isEmpty = true := by
        rw [hfin]; rfl
      simp [loopGo, hemp, hfin]
  | succ k ih =>
    intro fuel start counter history invoked hfuel h1 h2 hfin
    cases fuel with
    | zero => omega
    | succ f =>
      have h1z : extractFunctionCalls (responses start) ≠ [] := by
        have := h1 0 (Nat.succ_pos k)
        rwa [Nat.add_zero] at this
      have h2z : ∀ c ∈ extractFunctionCalls (responses start), dispatchOk env c = true := by
        have := h2 0 (Nat.succ_pos k)
        rwa [Nat.add_zero] at this
      have hne : (extractFunctionCalls (responses start)).isEmpty = false := by
        cases hx : extractFunctionCalls (responses start) with
        | nil => exact absurd hx h1z
        | cons a l => rfl
      have h1s : ∀ j, j < k → extractFunctionCalls (responses (start + 1 + j)) ≠ [] := by
        intro j hj
        have e : start + 1 + j = start + (j + 1) := by omega
        rw [e]; exact h1 (j + 1) (by omega)
      have h2s : ∀ j, j < k →
          ∀ c ∈ extractFunctionCalls (responses (start + 1 + j)), dispatchOk env c = true := by
        intro j hj
        have e : start + 1 + j = start + (j + 1) := by omega
        rw [e]; exact h2 (j + 1) (by omega)
      have hfins : extractFunctionCalls (responses (start + 1 + k)) = [] := by
        have e : start + 1 + k = start + (k + 1) := by omega
        rw [e]; exact hfin
      have hrec := ih f (start + 1) (counter + 1)
        (history ++ appendedTurns env (extractFunctionCalls (responses start)))
        (invoked ++ (extractFunctionCalls (responses start)).map FunctionCall.name)
        (by omega) h1s h2s hfins
      have estep : start + 1 + k = start + (k + 1) := by omega
      rw [estep] at hrec
      simp only [loopGo, hne, Bool.false_eq_true, if_false,
        processCalls_all_ok env _ _ h2z]
      refine ⟨hrec.1, ?_⟩
      rw [hrec.2]

/-- If a batch's prefix dispatches successfully and then a call names an
unregistered tool, processing stops with the unknown-tool fatal error:
exactly the executors of the prefix have been invoked, and neither the
unknown call nor anything after it runs. -/
theorem processCalls_unknown (env : Env) :
    ∀ (pre : List FunctionCall) (bad : FunctionCall) (rest : List FunctionCall)
      (history : List Turn),
      (∀ c ∈ pre, dispatchOk env c = true) →
      nameInToolsMap bad.name = false →
      processCalls env (pre ++ bad :: rest) history =
        (some ("Unknown tool requested by model: " ++ bad.name),
         history ++ appendedTurns env pre, pre.map FunctionCall.name) := by
  intro pre
  induction pre with
  | nil =>
    intro bad rest history _ hbad
    simp [processCalls, appendedTurns, hbad]
  | cons call pre ih =>
    intro bad rest history h hbad
    have hc : dispatchOk env call = true := h call (List.mem_cons_self _ _)
    have hr : ∀ c ∈ pre, dispatchOk env c = true :=
      fun c hm => h c (List.mem_cons_of_mem _ hm)
    unfold dispatchOk at hc
    cases htm : toolsMap call.name with
    | none => simp only [htm] at hc; exact Bool.noConfusion hc
    | some tool =>
      simp only [htm] at hc
      rcases hpair : tool env call.args with ⟨r1, n⟩
      cases r1 with
      | error e => rw [hpair] at hc; simp [Except.isOk, Except.toBool] at hc
      | ok payload =>
        have hin : nameInToolsMap call.name = true := by
          unfold nameInToolsMap; rw [htm]; rfl
        simp only [List.cons_append, processCalls, appendedTurns, hin, if_true, htm, hpair,
          List.append_eq]
        rw [ih bad rest (history ++ [modelTurn call, toolTurn call.name payload]) hr hbad]
        simp [List.append_assoc]

/- =====================  Claim theorems  ===================== -/

/-- Claim C1 (corrected, counterexample): a Model Gateway that on every
round requests the registered tool `get_weather` but with no arguments
never returns final text, yet the run terminates at iteration 1 with the
fatal `city is required` error — not at iteration 7 with the
iteration-bound error, refuting the claim as stated. -/
theorem loop_bound_seven_cex :
    (runAgent testEnv argv0 noCityStream).result = RunResult.fatal "city is required"
      ∧ (runAgent testEnv argv0 noCityStream).iterations = 1
      ∧ ¬ ((runAgent testEnv argv0 noCityStream).result
            = RunResult.fatal "Too many tool-call iterations.") := by
  decide

/-- Claim C1 (amended): for every Model Gateway response sequence in which
each response contains at least one tool-call request and every requested
call dispatches successfully, the loop terminates with the fatal
`Too many tool-call iterations.` error at exactly iteration 7, having made
exactly 7 `generateContent` network round trips — never an 8th. -/
theorem loop_bound_seven (env : Env) (argv : Argv) (responses : Nat → ModelResponse)
    (Hne : ∀ i, extractFunctionCalls (responses i) ≠ [])
    (Hok : ∀ i, ∀ c ∈ extractFunctionCalls (responses i), dispatchOk env c = true) :
    (runAgent env argv responses).result = RunResult.fatal "Too many tool-call iterations."
      ∧ (runAgent env argv responses).iterations = 7
      ∧ (runAgent env argv responses).modelCalls = 7 := by
  have := loopGo_never_final env responses Hne Hok 6 (responses 0) [userTurn argv] 0 1 []
    (Hne 0) (Hok 0)
  exact this

/-- Witness for C1: the gateway that always requests `get_weather("Paris")`
satisfies the hypotheses, and the run indeed stops at iteration 7 after 7
model calls. -/
theorem loop_bound_seven_witness :
    (runAgent testEnv argv0 cwStream).result = RunResult.fatal "Too many tool-call iterations."
      ∧ (runAgent testEnv argv0 cwStream).iterations = 7
      ∧ (runAgent testEnv argv0 cwStream).modelCalls = 7 := by
  refine loop_bound_seven testEnv argv0 cwStream ?_ ?_
  · intro i; exact (by decide : extractFunctionCalls [cwPart] ≠ [])
  · intro i c hc
    have hcc : c = cwCall := by
      simpa [cwStream, extractFunctionCalls, cwPart] using hc
    subst hcc; decide

/-- Claim C2 (corrected, counterexample): after six tool-dispatch rounds,
a seventh response consisting of final text is never reached as DONE — the
iteration-bound check fires first and the run fails fatally, refuting the
claim for the final-text response obtained after the 6th dispatch round. -/
theorem final_text_done_cex :
    (runAgent testEnv argv0 sixThenFinalStream).result
        = RunResult.fatal "Too many tool-call iterations."
      ∧ ¬ ((runAgent testEnv argv0 sixThenFinalStream).result
            = RunResult.done "All done!") := by
  decide

/-- Claim C2 (amended): whenever the gateway returns final text (a response
with no tool-call requests) after `k ≤ 5` successfully dispatched tool-call
rounds, the loop enters DONE and exposes that response's text as the run's
result, with exactly `k + 1` model calls made. -/
theorem final_text_done (env : Env) (argv : Argv) (responses : Nat → ModelResponse)
    (k : Nat) (hk : k ≤ 5)
    (H1 : ∀ j, j < k → extractFunctionCalls (responses j) ≠ [])
    (H2 : ∀ j, j < k → ∀ c ∈ extractFunctionCalls (responses j), dispatchOk env c = true)
    (H3 : extractFunctionCalls (responses k) = []) :
    (runAgent env argv responses).result = RunResult.done (finalTextOf (responses k))
      ∧ (runAgent env argv responses).modelCalls = k + 1 := by
  have h := loopGo_done env responses k 6 0 0 [userTurn argv] [] (by omega)
    (by intro j hj; simpa using H1 j hj)
    (by intro j hj; simpa using H2 j hj)
    (by simpa using H3)
  simpa [runAgent] using h

/-- Witness for C2: five `get_weather("Paris")` rounds followed by final
text `All done!` end in DONE with that text after 6 model calls. -/
theorem final_text_done_witness :
    (runAgent testEnv argv0 fiveThenFinalStream).result
        = RunResult.done (finalTextOf (fiveThenFinalStream 5))
      ∧ (runAgent testEnv argv0 fiveThenFinalStream).modelCalls = 5 + 1 := by
  refine final_text_done testEnv argv0 fiveThenFinalStream 5 (by omega) ?_ ?_ ?_
  · intro j hj; interval_cases j <;> decide
  · intro j hj c hc
    have hcc : c = cwCall := by
      interval_cases j <;> simpa [fiveThenFinalStream, extractFunctionCalls, cwPart] using hc
    subst hcc; decide
  · decide

/-- Claim C3 (corrected, counterexample): a single model response batching
two `get_weather("Paris")` requests makes the history grow by four turns
(a model turn and a tool turn per call), not by the claimed two (one model
turn plus one tool turn per batch). -/
theorem batch_append_cex :
    (processCalls testEnv [cwCall, cwCall] []).1 = none
      ∧ (processCalls testEnv [cwCall, cwCall] []).2.1.length = 4
      ∧ ¬ ((processCalls testEnv [cwCall, cwCall] []).2.1.length = 2) := by
  decide

/-- Claim C3 (amended): for every successfully dispatched tool-call batch,
the conversation history grows by exactly one model turn plus one tool turn
per call of the batch — `2 * k` turns for `k` calls, each model turn
recording one request — appended after the existing entries, which are
never mutated or removed. -/
theorem batch_append_only (env : Env) (calls : List FunctionCall) (history : List Turn)
    (h : ∀ c ∈ calls, dispatchOk env c = true) :
    processCalls env calls history =
        (none, history ++ appendedTurns env calls, calls.map FunctionCall.name)
      ∧ (appendedTurns env calls).length = 2 * calls.length := by
  exact ⟨processCalls_all_ok env calls history h, appendedTurns_length env calls h⟩

/-- Witness for C3: the singleton batch `get_weather("Paris")` appends
exactly its model turn and tool turn. -/
theorem batch_append_only_witness :
    processCalls testEnv [cwCall] []
        = (none, [] ++ appendedTurns testEnv [cwCall], [cwCall].map FunctionCall.name)
      ∧ (appendedTurns testEnv [cwCall]).length = 2 * [cwCall].length := by
  refine batch_append_only testEnv [cwCall] [] ?_
  intro c hc
  have hcc : c = cwCall := by simpa using hc
  subst hcc; decide

/-- Claim C4 (corrected, counterexample): in the batch
`[get_weather("Paris"), bogus]` the unknown name appears second, and the
`get_weather` executor has already been invoked when the unknown-tool fatal
error is raised — refuting "without invoking any executor, regardless of
where in the batch the unknown name appears". -/
theorem unknown_tool_cex :
    (processCalls testEnv [cwCall, bogusCall] []).1
        = some "Unknown tool requested by model: bogus"
      ∧ (processCalls testEnv [cwCall, bogusCall] []).2.2 = ["get_weather"]
      ∧ ¬ ((processCalls testEnv [cwCall, bogusCall] []).2.2 = []) := by
  decide

/-- Claim C4 (amended): when a batch contains a request whose name the JS
`in` operator does not find on the registry object — neither a registered
tool nor an inherited `Object.prototype` property — the loop transitions to
FAILED with the fatal unknown-tool error without invoking that call's
executor or any later one; exactly the executors of the successfully
dispatched earlier calls of the batch have been invoked.  (For an inherited
name such as `toString` the guard passes and the program instead calls the
inherited member, so no unknown-tool error is raised there.) -/
theorem unknown_tool_fatal (env : Env) (pre : List FunctionCall) (bad : FunctionCall)
    (rest : List FunctionCall) (history : List Turn)
    (hpre : ∀ c ∈ pre, dispatchOk env c = true)
    (hbad : nameInToolsMap bad.name = false) :
    processCalls env (pre ++ bad :: rest) history =
      (some ("Unknown tool requested by model: " ++ bad.name),
       history ++ appendedTurns env pre, pre.map FunctionCall.name) := by
  exact processCalls_unknown env pre bad rest history hpre hbad

/-- Witness for C4: an unknown tool as the first and only call of a batch
fails fatally with no executor invoked and no turn appended. -/
theorem unknown_tool_fatal_witness :
    processCalls testEnv ([] ++ bogusCall :: []) []
      = (some ("Unknown tool requested by model: " ++ bogusCall.name),
         [] ++ appendedTurns testEnv [], ([] : List FunctionCall).map FunctionCall.name) := by
  exact unknown_tool_fatal testEnv [] bogusCall [] [] (by intro c hc; cases hc) (by rfl)

/-- Claim C5 (corrected, counterexample): when the model requests
`send_email` with a non-email recipient, the zod validation error is thrown
out of the executor and terminates the run fatally; no failed ToolResult is
appended to the conversation (the history still holds only the seed user
turn), so nothing is fed back to the model to retry. -/
theorem validation_error_cex :
    (runAgent testEnv argv0 badEmailStream).result = RunResult.fatal "Invalid email"
      ∧ (runAgent testEnv argv0 badEmailStream).history = [userTurn argv0]
      ∧ (runAgent testEnv argv0 badEmailStream).iterations = 1 := by
  decide

/-- Claim C5 (amended): a tool invocation whose arguments fail
input-schema validation throws before any network I/O, and the error
propagates out of the dispatch loop as a fatal run error — it is not
wrapped into a failed ToolResult, appended to the conversation, or fed back
to the model. -/
theorem validation_error_fatal (env : Env) (args : Args) (e : String)
    (hconf : smtpConfigMissing env = false)
    (hval : parseSendEmailParams args = Except.error e) :
    sendEmailTool env args = (Except.error e, 0)
      ∧ ∀ history : List Turn,
          processCalls env [{ name := "send_email", args := args }] history
            = (some e, history, ["send_email"]) := by
  have htool : sendEmailTool env args = (Except.error e, 0) := by
    unfold sendEmailTool
    rw [hconf, hval]
    rfl
  refine ⟨htool, ?_⟩
  intro history
  have hm : toolsMap "send_email" = some (fun env args =>
      let r := sendEmailTool env args
      (r.1.map ToolPayload.email, r.2)) := by rfl
  simp only [processCalls, hm]
  rw [htool]
  rfl

/-- Witness for C5: `send_email` with recipient `not-an-email` fails
validation, returns no ToolResult, performs no network I/O, and aborts the
batch fatally. -/
theorem validation_error_fatal_witness :
    sendEmailTool testEnv badEmailArgs = (Except.error "Invalid email", 0)
      ∧ ∀ history : List Turn,
          processCalls testEnv [{ name := "send_email", args := badEmailArgs }] history
            = (some "Invalid email", history, ["send_email"]) := by
  exact validation_error_fatal testEnv badEmailArgs "Invalid email" (by decide) (by decide)

/-- Claim C6 (corrected, counterexample): with `SMTP_HOST` unset and a
schema-valid `send_email` request, the run terminates immediately and
fatally with the missing-config message; the failure is not returned as a
failed ToolResult (no tool turn is appended to the history). -/
theorem smtp_config_cex :
    (runAgent envNoHost argv0 goodEmailStream).result
        = RunResult.fatal "Missing SMTP config: SMTP_HOST, SMTP_PORT, SMTP_USER, SMTP_PASS, FROM_EMAIL"
      ∧ (runAgent envNoHost argv0 goodEmailStream).history = [userTurn argv0]
      ∧ (runAgent envNoHost argv0 goodEmailStream).iterations = 1 := by
  decide

/-- Claim C6 (amended): whenever any of the five mail configuration values
is absent, `send_email` fails — for any arguments — with the message naming
the SMTP configuration, before opening any network connection (zero network
operations), and the failure aborts the dispatch batch as a fatal error
rather than being returned as a failed ToolResult. -/
theorem smtp_config_fatal (env : Env) (args : Args)
    (hconf : smtpConfigMissing env = true) :
    sendEmailTool env args =
        (Except.error "Missing SMTP config: SMTP_HOST, SMTP_PORT, SMTP_USER, SMTP_PASS, FROM_EMAIL", 0)
      ∧ ∀ history : List Turn,
          processCalls env [{ name := "send_email", args := args }] history
            = (some "Missing SMTP config: SMTP_HOST, SMTP_PORT, SMTP_USER, SMTP_PASS, FROM_EMAIL",
               history, ["send_email"]) := by
  have htool : sendEmailTool env args =
      (Except.error "Missing SMTP config: SMTP_HOST, SMTP_PORT, SMTP_USER, SMTP_PASS, FROM_EMAIL", 0) := by
    unfold sendEmailTool
    rw [hconf]
    rfl
  refine ⟨htool, ?_⟩
  intro history
  have hm : toolsMap "send_email" = some (fun env args =>
      let r := sendEmailTool env args
      (r.1.map ToolPayload.email, r.2)) := by rfl
  simp only [processCalls, hm]
  rw [htool]
  rfl

/-- Witness for C6: with only `SMTP_HOST` missing and otherwise valid
arguments, the tool fails fast with the config message and no network
operation. -/
theorem smtp_config_fatal_witness :
    sendEmailTool envNoHost goodEmailArgs =
        (Except.error "Missing SMTP config: SMTP_HOST, SMTP_PORT, SMTP_USER, SMTP_PASS, FROM_EMAIL", 0)
      ∧ ∀ history : List Turn,
          processCalls envNoHost [{ name := "send_email", args := goodEmailArgs }] history
            = (some "Missing SMTP config: SMTP_HOST, SMTP_PORT, SMTP_USER, SMTP_PASS, FROM_EMAIL",
               history, ["send_email"]) := by
  exact smtp_config_fatal envNoHost goodEmailArgs (by decide)

/-- Claim C7 (code_bug): when the backend text for `Paris` contains no
signed-integer °C pattern (here `"Sunny"`), the executor computes
`degree_c = NaN` as intended, but `GetWeatherResultSchema.parse` —
zod `z.number()` — rejects `NaN`, so the whole call fails after the one
network read instead of reporting the not-a-number value. -/
theorem weather_nan_rejected :
    getWeatherTool envSunnyNoTemp parisArgs
      = (Except.error "Expected number, received nan", 1) := by
  decide

/-- Claim C8 (confirmed): with city `Paris` and the weather collaborator
answering `"Partly cloudy +15°C"`, the executor returns exactly
`{city: "Paris", degree_c: 15, condition: "Partly cloudy"}` (after its one
network read). -/
theorem weather_paris_scenario :
    getWeatherTool envPartlyCloudy parisArgs
      = (Except.ok { city := "Paris", degree_c := 15, condition := some "Partly cloudy" }, 1) := by
  decide

/-- Claim C9 (confirmed): if the terminal model response (no tool calls
left, fuel remaining) has no part with non-empty text, the loop ends in
DONE with the literal final output `Done.` — not an empty string and not an
error. -/
theorem empty_final_text_done (env : Env) (responses : Nat → ModelResponse)
    (resp : ModelResponse) (history : List Turn) (fuel counter modelCalls : Nat)
    (invoked : List String)
    (hterm : extractFunctionCalls resp = [])
    (htext : (resp.filterMap ContentPart.text).filter (fun t => !(t == "")) = []) :
    (loopGo env responses (fuel + 1) resp history counter modelCalls invoked).result
      = RunResult.done "Done." := by
  have hemp : (extractFunctionCalls resp).isEmpty = true := by rw [hterm]; rfl
  simp only [loopGo, hemp, if_true]
  simp [finalTextOf, htext]

/-- Witness for C9: a terminal response whose only part carries the empty
text yields the final output `Done.`. -/
theorem empty_final_text_done_witness :
    (loopGo testEnv (fun _ => []) (0 + 1) [textPart ""] [] 0 1 []).result
      = RunResult.done "Done." := by
  exact empty_final_text_done testEnv (fun _ => []) [textPart ""] [] 0 0 1 []
    (by decide) (by decide)

/-- Claim C10 (confirmed): whenever the `city` argument is missing, not a
string, or the empty string, the weather executor fails with exactly
`city is required` and performs zero network requests, for every
environment. -/
theorem weather_city_required (env : Env) (args : Args)
    (h : cityArgInvalid args = true) :
    getWeatherTool env args = (Except.error "city is required", 0) := by
  unfold getWeatherTool
  cases harg : getArg args "city" with
  | none => rfl
  | some v =>
    cases v with
    | str s =>
      have hs : s = "" := by
        unfold cityArgInvalid at h
        rw [harg] at h
        simpa using h
      subst hs
      rfl
    | num n => rfl
    | boolean b => rfl
    | null => rfl

/-- Witness for C10: a `get_weather` call with no arguments at all fails
with `city is required` before any network request. -/
theorem weather_city_required_witness :
    getWeatherTool testEnv ([] : Args) = (Except.error "city is required", 0) := by
  exact weather_city_required testEnv [] (by decide)
